import Mathlib

/-!
Verification of the `cartesia-python` bytes client (`src/cartesia/_bytes.py`).

The module under verification is `_BYTES`: it builds a JSON request body,
POSTs it to `{http_url}/tts/bytes`, and collects the streamed byte chunks
into one buffer, retrying the whole generation on connection-level errors.

Shallow embedding choices:
* Python `bytes` chunks are `List Nat`; joining is `List.flatten`.
* JSON values are the inductive `JValue`; Python dicts preserving insertion
  order are association lists `List (String × JValue)`.
* The HTTP transport (the `requests` library) is abstracted as a function
  from the attempt number (1-based) to a `TransportResult`: either a
  connection-level failure at POST time, or a response with a status flag,
  a body text, a streamed chunk list, and an optional mid-stream
  connection failure.
* Exceptions are the inductive `Err`; `_bytes_generator_wrapper`'s
  `raise RuntimeError(f"Error generating audio. {e}")` is the constructor
  `Err.runtimeError` holding its cause, with the f-string message recovered
  by `errMessage`.
* Seconds (the `timeout` float and the backoff delays) are `ℚ`: the claims
  only copy and compare these values, never round them.
-/

namespace Cartesia

/-- JSON values, the codomain of the request-body mapping built by `send`. -/
inductive JValue where
  | str (s : String)
  | num (n : Int)
  | null
  | obj (fields : List (String × JValue))
deriving Repr

/-- Python exceptions that arise in `_bytes.py`:
`requests` connection-level errors, the `ValueError` raised on a non-ok
status, `KeyError` from indexing a dict without the key, and the
`RuntimeError` that `_bytes_generator_wrapper` raises around any of them
(holding its cause, from which the f-string message is recomputed). -/
inductive Err where
  | connectionError (msg : String)
  | valueError (msg : String)
  | keyError (key : String)
  | runtimeError (cause : Err)
deriving Repr, DecidableEq

/-- The `str(e)` text of an exception; for `RuntimeError` it is the
f-string `"Error generating audio. {e}"` built at the raise site in
`_bytes_generator_wrapper`. -/
def errMessage : Err → String
  | .connectionError m => m
  | .valueError m => m
  | .keyError k => k
  | .runtimeError c => "Error generating audio. " ++ errMessage c

/-- Modelled from the spec: which failures count as connection-level for
the retry policy of `cartesia/utils/retry.py` (not in src/). The spec's
glossary defines a connection-level error by the failure event ("any
failure occurring before or during a socket-level exchange"), and §4.2
requires that a connection-level error occurring anywhere in the
generation — including mid-stream, where `_bytes_generator_wrapper` has
already wrapped it in a `RuntimeError` — triggers a retry, while HTTP
error statuses do not; so the predicate looks through the wrapping at the
root cause. -/
def connectionLevel : Err → Bool
  | .connectionError _ => true
  | .valueError _ => false
  | .keyError _ => false
  | .runtimeError c => connectionLevel c

/-- Python `dict[key]` lookup on an insertion-ordered mapping (keys are
unique in a Python dict, so first match is the match); `none` is a
`KeyError`. -/
def dictGet (m : List (String × JValue)) (k : String) : Option JValue :=
  (m.find? (fun p => p.1 == k)).map Prod.snd

/-- The `request_body` dict built in `send` (src/cartesia/_bytes.py):
required fields copied verbatim, `output_format` narrowed to exactly
container/encoding/sample_rate by indexing the caller's mapping (a missing
key is a `KeyError`, hence the `Option`), `language` always present (null
when absent), and `duration` appended only when not `None`. -/
def request_body (model_id transcript : String) (voice : List (String × String))
    (output_format : List (String × JValue)) (duration : Option Int)
    (language : Option String) : Option (List (String × JValue)) := do
  let container ← dictGet output_format "container"
  let encoding ← dictGet output_format "encoding"
  let sample_rate ← dictGet output_format "sample_rate"
  return [("model_id", JValue.str model_id),
          ("transcript", JValue.str transcript),
          ("voice", JValue.obj (voice.map (fun p => (p.1, JValue.str p.2)))),
          ("output_format", JValue.obj
            [("container", container), ("encoding", encoding),
             ("sample_rate", sample_rate)]),
          ("language", match language with
                       | some l => JValue.str l
                       | none => JValue.null)] ++
         (match duration with
          | some d => [("duration", JValue.num d)]
          | none => [])

/-- Four-digit lowercase hex, as in Python's `\uXXXX` escapes. -/
def hex4 (n : Nat) : String :=
  let d := fun (k : Nat) => (Nat.digitChar (n / 16 ^ k % 16))
  String.mk [d 3, d 2, d 1, d 0]

/-- Escape one character as Python's `json.dumps` (default `ensure_ascii`)
does inside a string literal. -/
def jsonEscapeChar (c : Char) : String :=
  if c = '"' then "\\\""
  else if c = '\\' then "\\\\"
  else if c = '\n' then "\\n"
  else if c = '\r' then "\\r"
  else if c = '\t' then "\\t"
  else if c.toNat < 0x20 ∨ c.toNat > 0x7e then "\\u" ++ hex4 c.toNat
  else String.mk [c]

/-- A JSON string literal with its quotes, as `json.dumps` renders it. -/
def jsonString (s : String) : String :=
  "\"" ++ String.join (s.toList.map jsonEscapeChar) ++ "\""

mutual

/-- Python's `json.dumps` with default separators (`", "` and `": "`),
restricted to the value shapes `send` can build. -/
def jsonDumps : JValue → String
  | .str s => jsonString s
  | .num n => toString n
  | .null => "null"
  | .obj fs => "\x7b" ++ jsonDumpsFields fs ++ "\x7d"

/-- Comma-separated `"key": value` items of a JSON object. -/
def jsonDumpsFields : List (String × JValue) → String
  | [] => ""
  | [(k, v)] => jsonString k ++ ": " ++ jsonDumps v
  | (k, v) :: p :: rest =>
      jsonString k ++ ": " ++ jsonDumps v ++ ", " ++ jsonDumpsFields (p :: rest)

end

/-- Construction-time configuration of `_BYTES` (`__init__`). -/
structure ClientConfig where
  http_url : String
  headers : List (String × String)
  timeout : ℚ
deriving Repr, DecidableEq

/-- One outbound HTTP request as `requests.post` receives it:
method, URL, headers, serialized body, and the (connect, read) timeout
pair. -/
structure HttpRequest where
  method : String
  url : String
  headers : List (String × String)
  body : String
  timeout : ℚ × ℚ
deriving Repr, DecidableEq

/-- What the abstracted transport returns for one attempt: `ok` is the
2xx flag (`response.ok`), `text` the body text, `stream` the chunks
`iter_content` yields in arrival order, and `streamErr` an optional
connection-level failure after those chunks (the spec's
`Streaming → Failed` transition). -/
structure HttpResponse where
  ok : Bool
  text : String
  stream : List (List Nat)
  streamErr : Option String
deriving Repr, DecidableEq

/-- Outcome of one attempt's `requests.post`: a connection-level exception,
or a response. -/
inductive TransportResult where
  | connFail (msg : String)
  | resp (r : HttpResponse)
deriving Repr, DecidableEq

/-- The request `_bytes_generator` posts: `POST {http_url}/tts/bytes` with
the configured headers, the serialized body, and
`timeout=(self.timeout, self.timeout)`. -/
def mkRequest (cfg : ClientConfig) (body : String) : HttpRequest :=
  ⟨"POST", cfg.http_url ++ "/tts/bytes", cfg.headers, body, (cfg.timeout, cfg.timeout)⟩

/-- `_bytes_generator` (src/cartesia/_bytes.py) on one attempt: issue the
POST; on a connection failure raise it; on a non-ok status raise
`ValueError(f"Failed to generate audio. {response.text}")`; otherwise
yield the streamed chunks, ending in the mid-stream connection error if
one occurs. Returns (request issued, chunks yielded, terminating error if
any). -/
def _bytes_generator (cfg : ClientConfig) (body : String) (t : TransportResult) :
    HttpRequest × List (List Nat) × Option Err :=
  (mkRequest cfg body,
    match t with
    | .connFail m => ([], some (Err.connectionError m))
    | .resp r =>
        if r.ok then (r.stream, r.streamErr.map Err.connectionError)
        else ([], some (Err.valueError ("Failed to generate audio. " ++ r.text))))

/-- `_bytes_generator_wrapper` (src/cartesia/_bytes.py), one attempt's
body: re-yield the generator's chunks, and catch any exception `e`,
re-raising `RuntimeError(f"Error generating audio. {e}")`. -/
def _bytes_generator_wrapper (cfg : ClientConfig) (body : String)
    (t : TransportResult) : HttpRequest × List (List Nat) × Option Err :=
  let g := _bytes_generator cfg body t
  (g.1, g.2.1, g.2.2.map Err.runtimeError)

/-- Observable trace of one `send` call: attempts performed, the sleep
durations between attempts in order, the HTTP requests issued, and the
final outcome (full chunk list of the successful attempt, or the fatal
error). -/
structure SendTrace where
  attempts : Nat
  delays : List ℚ
  requests : List HttpRequest
  result : Except Err (List (List Nat))
deriving Repr

/-- Modelled from the spec: the retry loop of `retry_on_connection_error`
(`cartesia/utils/retry.py`, not in src/). Per spec §4.2, the wrapper
surrounds the entire generation (connection plus streaming): attempt
`e + 1` runs `_bytes_generator_wrapper`; on success its chunks are the
result; a failure whose root cause is connection-level, with attempts
remaining, sleeps `backoff_factor * 2 ^ (n - 2)` seconds before attempt
`n = e + 2` and retries, discarding the failed attempt's chunks; any other
failure, or exhaustion of the `remaining` attempt budget, is fatal and
surfaces the attempt's error. -/
def retryGo (cfg : ClientConfig) (body : String) (t : Nat → TransportResult)
    (backoff_factor : ℚ) : Nat → Nat → SendTrace
  | _, 0 => ⟨0, [], [], .error (Err.runtimeError (Err.connectionError ""))⟩
  | e, remaining + 1 =>
      let g := _bytes_generator_wrapper cfg body (t (e + 1))
      match g.2.2 with
      | none => ⟨1, [], [g.1], .ok g.2.1⟩
      | some er =>
          if connectionLevel er ∧ 0 < remaining then
            let rest := retryGo cfg body t backoff_factor (e + 1) remaining
            ⟨rest.attempts + 1, backoff_factor * 2 ^ e :: rest.delays,
             g.1 :: rest.requests, rest.result⟩
          else ⟨1, [], [g.1], .error er⟩

/-- Modelled from the spec: `retry_on_connection_error(max_retries,
backoff_factor)` applied to `_bytes_generator_wrapper` — up to
`max_retries` attempts of the whole generation, exponential backoff, only
connection-level root causes retried (`cartesia/utils/retry.py` and the
constants `MAX_RETRIES`/`BACKOFF_FACTOR` of `cartesia/_constants.py` are
not in src/, so both are parameters here). -/
def retry_on_connection_error (cfg : ClientConfig) (body : String)
    (t : Nat → TransportResult) (max_retries : Nat) (backoff_factor : ℚ) :
    SendTrace :=
  retryGo cfg body t backoff_factor 0 max_retries

/-- The trace of one `send` call: build `request_body` (a missing
`output_format` key is a `KeyError` before any attempt), serialize it
once, and run the retrying generation. -/
def sendTrace (cfg : ClientConfig) (model_id transcript : String)
    (output_format : List (String × JValue)) (voice : List (String × String))
    (duration : Option Int) (language : Option String)
    (t : Nat → TransportResult) (max_retries : Nat) (backoff_factor : ℚ) :
    SendTrace :=
  match request_body model_id transcript voice output_format duration language with
  | none => ⟨0, [], [], .error (Err.keyError "output_format")⟩
  | some body =>
      retry_on_connection_error cfg (jsonDumps (JValue.obj body)) t
        max_retries backoff_factor

/-- `send` (src/cartesia/_bytes.py): collect every chunk the retrying
generator yields and return `{"audio": b"".join(chunks)}`. -/
def send (cfg : ClientConfig) (model_id transcript : String)
    (output_format : List (String × JValue)) (voice : List (String × String))
    (duration : Option Int) (language : Option String)
    (t : Nat → TransportResult) (max_retries : Nat) (backoff_factor : ℚ) :
    Except Err (List (String × List Nat)) :=
  (sendTrace cfg model_id transcript output_format voice duration language t
      max_retries backoff_factor).result.map
    (fun chunks => [("audio", chunks.flatten)])

/-- A transport outcome that the spec classifies as a connection-level
failure of the attempt: the POST itself raised, or the stream broke
mid-way after a successful status. -/
def connFailure : TransportResult → Bool
  | .connFail _ => true
  | .resp r => r.ok && r.streamErr.isSome

/-! ### Small unfolding lemmas -/

theorem wrapper_req (cfg : ClientConfig) (body : String) (tr : TransportResult) :
    (_bytes_generator_wrapper cfg body tr).1 = mkRequest cfg body := rfl

theorem wrapper_connFail (cfg : ClientConfig) (body m : String) :
    _bytes_generator_wrapper cfg body (.connFail m) =
      (mkRequest cfg body, [], some (Err.runtimeError (Err.connectionError m))) := rfl

theorem wrapper_ok (cfg : ClientConfig) (body txt : String) (s : List (List Nat)) :
    _bytes_generator_wrapper cfg body (.resp ⟨true, txt, s, none⟩) =
      (mkRequest cfg body, s, none) := rfl

theorem wrapper_streamErr (cfg : ClientConfig) (body txt m : String)
    (s : List (List Nat)) :
    _bytes_generator_wrapper cfg body (.resp ⟨true, txt, s, some m⟩) =
      (mkRequest cfg body, s,
        some (Err.runtimeError (Err.connectionError m))) := rfl

theorem wrapper_badStatus (cfg : ClientConfig) (body txt : String)
    (s : List (List Nat)) (se : Option String) :
    _bytes_generator_wrapper cfg body (.resp ⟨false, txt, s, se⟩) =
      (mkRequest cfg body, [],
        some (Err.runtimeError
          (Err.valueError ("Failed to generate audio. " ++ txt)))) := rfl

theorem retryGo_succ (cfg : ClientConfig) (body : String)
    (t : Nat → TransportResult) (bf : ℚ) (e remaining : Nat) :
    retryGo cfg body t bf e (remaining + 1) =
      (match (_bytes_generator_wrapper cfg body (t (e + 1))).2.2 with
       | none =>
           ⟨1, [], [(_bytes_generator_wrapper cfg body (t (e + 1))).1],
            .ok (_bytes_generator_wrapper cfg body (t (e + 1))).2.1⟩
       | some er =>
           if connectionLevel er ∧ 0 < remaining then
             ⟨(retryGo cfg body t bf (e + 1) remaining).attempts + 1,
              bf * 2 ^ e :: (retryGo cfg body t bf (e + 1) remaining).delays,
              (_bytes_generator_wrapper cfg body (t (e + 1))).1 ::
                (retryGo cfg body t bf (e + 1) remaining).requests,
              (retryGo cfg body t bf (e + 1) remaining).result⟩
           else ⟨1, [], [(_bytes_generator_wrapper cfg body (t (e + 1))).1],
                 .error er⟩) := by
  rfl

theorem retryGo_succ_none (cfg : ClientConfig) (body : String)
    (t : Nat → TransportResult) (bf : ℚ) (e remaining : Nat)
    (hg : (_bytes_generator_wrapper cfg body (t (e + 1))).2.2 = none) :
    retryGo cfg body t bf e (remaining + 1) =
      ⟨1, [], [mkRequest cfg body],
       .ok (_bytes_generator_wrapper cfg body (t (e + 1))).2.1⟩ := by
  rw [retryGo_succ]
  split
  · rfl
  · rename_i er heq
    rw [hg] at heq
    cases heq

theorem retryGo_succ_retry (cfg : ClientConfig) (body : String)
    (t : Nat → TransportResult) (bf : ℚ) (e remaining : Nat) (er : Err)
    (hg : (_bytes_generator_wrapper cfg body (t (e + 1))).2.2 = some er)
    (hc : connectionLevel er = true) (hrem : 0 < remaining) :
    retryGo cfg body t bf e (remaining + 1) =
      ⟨(retryGo cfg body t bf (e + 1) remaining).attempts + 1,
       bf * 2 ^ e :: (retryGo cfg body t bf (e + 1) remaining).delays,
       mkRequest cfg body :: (retryGo cfg body t bf (e + 1) remaining).requests,
       (retryGo cfg body t bf (e + 1) remaining).result⟩ := by
  rw [retryGo_succ]
  split
  · rename_i heq
    rw [hg] at heq
    cases heq
  · rename_i er2 heq
    rw [hg] at heq
    cases heq
    rw [if_pos ⟨hc, hrem⟩, wrapper_req]

theorem retryGo_succ_stop (cfg : ClientConfig) (body : String)
    (t : Nat → TransportResult) (bf : ℚ) (e remaining : Nat) (er : Err)
    (hg : (_bytes_generator_wrapper cfg body (t (e + 1))).2.2 = some er)
    (hstop : ¬(connectionLevel er = true ∧ 0 < remaining)) :
    retryGo cfg body t bf e (remaining + 1) =
      ⟨1, [], [mkRequest cfg body], .error er⟩ := by
  rw [retryGo_succ]
  split
  · rename_i heq
    rw [hg] at heq
    cases heq
  · rename_i er2 heq
    rw [hg] at heq
    cases heq
    rw [if_neg hstop, wrapper_req]

theorem wrapper_err_of_connFailure (cfg : ClientConfig) (body : String)
    (tr : TransportResult) (h : connFailure tr = true) :
    ∃ m, (_bytes_generator_wrapper cfg body tr).2.2 =
      some (Err.runtimeError (Err.connectionError m)) := by
  cases tr with
  | connFail m => exact ⟨m, rfl⟩
  | resp r =>
    obtain ⟨ok, txt, s, se⟩ := r
    simp [connFailure] at h
    obtain ⟨hok, hse⟩ := h
    subst hok
    cases se with
    | none => simp at hse
    | some m => exact ⟨m, rfl⟩

theorem wrapper_none_inv (cfg : ClientConfig) (body : String)
    (tr : TransportResult) (h : (_bytes_generator_wrapper cfg body tr).2.2 = none) :
    ∃ r, tr = .resp r ∧ r.ok = true ∧ r.streamErr = none ∧
      (_bytes_generator_wrapper cfg body tr).2.1 = r.stream := by
  cases tr with
  | connFail m => simp [_bytes_generator_wrapper, _bytes_generator] at h
  | resp r =>
    obtain ⟨ok, txt, s, se⟩ := r
    cases ok with
    | false => simp [_bytes_generator_wrapper, _bytes_generator] at h
    | true =>
      cases se with
      | some m => simp [_bytes_generator_wrapper, _bytes_generator] at h
      | none => exact ⟨⟨true, txt, s, none⟩, rfl, rfl, rfl, rfl⟩

theorem wrapper_err_runtime (cfg : ClientConfig) (body : String)
    (tr : TransportResult) (er : Err)
    (h : (_bytes_generator_wrapper cfg body tr).2.2 = some er) :
    ∃ c, (_bytes_generator cfg body tr).2.2 = some c ∧ er = .runtimeError c := by
  have h' : ((_bytes_generator cfg body tr).2.2.map Err.runtimeError) = some er := h
  obtain ⟨c, hc, hcer⟩ := Option.map_eq_some'.mp h'
  exact ⟨c, hc, hcer.symm⟩

theorem delays_shift (bf : ℚ) (e r : Nat) :
    bf * 2 ^ e :: (List.range r).map (fun i => bf * 2 ^ (e + 1 + i)) =
      (List.range (r + 1)).map (fun i => bf * 2 ^ (e + i)) := by
  rw [List.range_succ_eq_map, List.map_cons, List.map_map]
  refine congrArg₂ _ (by norm_num) ?_
  refine List.map_congr_left ?_
  intro i _
  simp only [Function.comp]
  refine congrArg _ ?_
  refine congrArg _ ?_
  omega

/-! ### Inductive characterizations of the retry loop -/

theorem sendTrace_mk_congr {a a2 : Nat} {b b2 : List ℚ} {c c2 : List HttpRequest}
    {d d2 : Except Err (List (List Nat))} (h1 : a = a2) (h2 : b = b2)
    (h3 : c = c2) (h4 : d = d2) :
    (⟨a, b, c, d⟩ : SendTrace) = ⟨a2, b2, c2, d2⟩ := by
  subst h1; subst h2; subst h3; subst h4; rfl

theorem retryGo_allConnFail (cfg : ClientConfig) (body : String)
    (t : Nat → TransportResult) (bf : ℚ) (msgs : Nat → String)
    (ht : ∀ n, t n = .connFail (msgs n)) :
    ∀ rem e, 1 ≤ rem →
      retryGo cfg body t bf e rem =
        ⟨rem, (List.range (rem - 1)).map (fun i => bf * 2 ^ (e + i)),
         List.replicate rem (mkRequest cfg body),
         .error (Err.runtimeError (Err.connectionError (msgs (e + rem))))⟩ := by
  intro rem
  induction rem with
  | zero => intro e h; omega
  | succ r ih =>
    intro e _
    have hg : (_bytes_generator_wrapper cfg body (t (e + 1))).2.2 =
        some (Err.runtimeError (Err.connectionError (msgs (e + 1)))) := by
      rw [ht (e + 1), wrapper_connFail]
    rcases Nat.eq_zero_or_pos r with hr | hr
    · subst hr
      rw [retryGo_succ_stop cfg body t bf e 0 _ hg (by simp)]
      simp
    · rw [retryGo_succ_retry cfg body t bf e r _ hg rfl hr, ih (e + 1) hr]
      obtain ⟨r2, rfl⟩ : ∃ r2, r = r2 + 1 := ⟨r - 1, by omega⟩
      refine sendTrace_mk_congr rfl (delays_shift bf e r2) rfl ?_
      have heq : e + 1 + (r2 + 1) = e + (r2 + 1 + 1) := by omega
      rw [heq]

theorem retryGo_leadingFails_thenOk (cfg : ClientConfig) (body : String)
    (t : Nat → TransportResult) (bf : ℚ) :
    ∀ k e rem txt cs, k < rem →
      (∀ i, i < k → connFailure (t (e + 1 + i)) = true) →
      t (e + 1 + k) = .resp ⟨true, txt, cs, none⟩ →
      retryGo cfg body t bf e rem =
        ⟨k + 1, (List.range k).map (fun i => bf * 2 ^ (e + i)),
         List.replicate (k + 1) (mkRequest cfg body), .ok cs⟩ := by
  intro k
  induction k with
  | zero =>
    intro e rem txt cs hk hfail hok
    obtain ⟨r, rfl⟩ : ∃ r, rem = r + 1 := ⟨rem - 1, by omega⟩
    have hok' : t (e + 1) = .resp ⟨true, txt, cs, none⟩ := hok
    have hg : (_bytes_generator_wrapper cfg body (t (e + 1))).2.2 = none := by
      rw [hok', wrapper_ok]
    rw [retryGo_succ_none cfg body t bf e r hg]
    have hcs : (_bytes_generator_wrapper cfg body (t (e + 1))).2.1 = cs := by
      rw [hok', wrapper_ok]
    rw [hcs]
    rfl
  | succ k ih =>
    intro e rem txt cs hk hfail hok
    obtain ⟨r, rfl⟩ : ∃ r, rem = r + 1 := ⟨rem - 1, by omega⟩
    have h0 : connFailure (t (e + 1)) = true := by
      have := hfail 0 (by omega)
      simpa using this
    obtain ⟨m, hm⟩ := wrapper_err_of_connFailure cfg body (t (e + 1)) h0
    have hfail2 : ∀ i, i < k → connFailure (t (e + 1 + 1 + i)) = true := by
      intro i hi
      have := hfail (i + 1) (by omega)
      have heq : e + 1 + (i + 1) = e + 1 + 1 + i := by omega
      rwa [heq] at this
    have hok2 : t (e + 1 + 1 + k) = .resp ⟨true, txt, cs, none⟩ := by
      have heq : e + 1 + (k + 1) = e + 1 + 1 + k := by omega
      rwa [heq] at hok
    rw [retryGo_succ_retry cfg body t bf e r _ hm rfl (by omega),
      ih (e + 1) r txt cs (by omega) hfail2 hok2]
    exact sendTrace_mk_congr rfl (delays_shift bf e k) rfl rfl

theorem retryGo_ok_inv (cfg : ClientConfig) (body : String)
    (t : Nat → TransportResult) (bf : ℚ) :
    ∀ rem e cs, (retryGo cfg body t bf e rem).result = .ok cs →
      ∃ j r, j < rem ∧ t (e + 1 + j) = .resp r ∧ r.ok = true ∧
        r.streamErr = none ∧ cs = r.stream := by
  intro rem
  induction rem with
  | zero => intro e cs h; simp [retryGo] at h
  | succ rm ih =>
    intro e cs h
    cases hg : (_bytes_generator_wrapper cfg body (t (e + 1))).2.2 with
    | none =>
      rw [retryGo_succ_none cfg body t bf e rm hg] at h
      obtain ⟨r, htr, hrok, hrse, hstream⟩ := wrapper_none_inv cfg body (t (e + 1)) hg
      refine ⟨0, r, by omega, by simpa using htr, hrok, hrse, ?_⟩
      have hcs : (_bytes_generator_wrapper cfg body (t (e + 1))).2.1 = cs := by
        simpa using h
      rw [← hcs, hstream]
    | some er =>
      by_cases hcond : connectionLevel er = true ∧ 0 < rm
      · rw [retryGo_succ_retry cfg body t bf e rm er hg hcond.1 hcond.2] at h
        obtain ⟨j, r, hj, htr, hrok, hrse, hcs⟩ := ih (e + 1) cs h
        refine ⟨j + 1, r, by omega, ?_, hrok, hrse, hcs⟩
        have heq : e + 1 + (j + 1) = e + 1 + 1 + j := by omega
        rwa [heq]
      · rw [retryGo_succ_stop cfg body t bf e rm er hg hcond] at h
        simp at h

theorem retryGo_err_runtime (cfg : ClientConfig) (body : String)
    (t : Nat → TransportResult) (bf : ℚ) :
    ∀ rem e er, (retryGo cfg body t bf e rem).result = .error er →
      ∃ c, er = .runtimeError c := by
  intro rem
  induction rem with
  | zero =>
    intro e er h
    simp [retryGo] at h
    exact ⟨Err.connectionError "", h.symm⟩
  | succ rm ih =>
    intro e er h
    cases hg : (_bytes_generator_wrapper cfg body (t (e + 1))).2.2 with
    | none =>
      rw [retryGo_succ_none cfg body t bf e rm hg] at h
      simp at h
    | some er2 =>
      by_cases hcond : connectionLevel er2 = true ∧ 0 < rm
      · rw [retryGo_succ_retry cfg body t bf e rm er2 hg hcond.1 hcond.2] at h
        exact ih (e + 1) er h
      · rw [retryGo_succ_stop cfg body t bf e rm er2 hg hcond] at h
        obtain ⟨c, _, hc⟩ := wrapper_err_runtime cfg body (t (e + 1)) er2 hg
        have her : er2 = er := by simpa using h
        exact ⟨c, her ▸ hc⟩

theorem retryGo_requests_replicate (cfg : ClientConfig) (body : String)
    (t : Nat → TransportResult) (bf : ℚ) :
    ∀ rem e, (retryGo cfg body t bf e rem).requests =
      List.replicate (retryGo cfg body t bf e rem).attempts (mkRequest cfg body) := by
  intro rem
  induction rem with
  | zero => intro e; rfl
  | succ rm ih =>
    intro e
    cases hg : (_bytes_generator_wrapper cfg body (t (e + 1))).2.2 with
    | none =>
      rw [retryGo_succ_none cfg body t bf e rm hg]
      rfl
    | some er =>
      by_cases hcond : connectionLevel er = true ∧ 0 < rm
      · rw [retryGo_succ_retry cfg body t bf e rm er hg hcond.1 hcond.2]
        simp only [List.replicate_succ]
        rw [ih (e + 1)]
      · rw [retryGo_succ_stop cfg body t bf e rm er hg hcond]
        rfl

theorem sendTrace_eq_retry (cfg : ClientConfig) (model_id transcript : String)
    (output_format : List (String × JValue)) (voice : List (String × String))
    (duration : Option Int) (language : Option String)
    (t : Nat → TransportResult) (max_retries : Nat) (bf : ℚ)
    (body : List (String × JValue))
    (hb : request_body model_id transcript voice output_format duration
      language = some body) :
    sendTrace cfg model_id transcript output_format voice duration language t
        max_retries bf =
      retryGo cfg (jsonDumps (JValue.obj body)) t bf 0 max_retries := by
  unfold sendTrace retry_on_connection_error
  split
  · rename_i hnone
    rw [hnone] at hb
    cases hb
  · rename_i b hsome
    rw [hsome] at hb
    injection hb with hbb
    subst hbb
    rfl

/-! ### Claims about the request payload -/

/-- Claim C4: the serialized request payload contains the key `duration`
iff the caller supplied a non-absent duration; `duration = 0` produces the
key with value `0`, and an absent duration produces no `duration` key at
all. -/
theorem request_body_duration_key_iff_supplied
    (model_id transcript : String) (voice : List (String × String))
    (output_format : List (String × JValue)) (duration : Option Int)
    (language : Option String) (body : List (String × JValue))
    (hb : request_body model_id transcript voice output_format duration
      language = some body) :
    dictGet body "duration" = duration.map JValue.num := by
  unfold request_body at hb
  obtain ⟨c, hc, hb⟩ := Option.bind_eq_some.mp hb
  obtain ⟨en, he, hb⟩ := Option.bind_eq_some.mp hb
  obtain ⟨sr, hs, hb⟩ := Option.bind_eq_some.mp hb
  have hbody := (Option.some.injEq _ _ ▸ hb)
  subst hbody
  cases duration <;> rfl

/-- Claim C5: the `output_format` entry of the request payload has exactly
the three keys container/encoding/sample_rate, with values copied from the
caller's `output_format` mapping, regardless of extra keys in that input
mapping. -/
theorem request_body_output_format_exactly_three_keys
    (model_id transcript : String) (voice : List (String × String))
    (output_format : List (String × JValue)) (duration : Option Int)
    (language : Option String) (c en sr : JValue)
    (body : List (String × JValue))
    (hc : dictGet output_format "container" = some c)
    (he : dictGet output_format "encoding" = some en)
    (hs : dictGet output_format "sample_rate" = some sr)
    (hb : request_body model_id transcript voice output_format duration
      language = some body) :
    dictGet body "output_format" = some (JValue.obj
      [("container", c), ("encoding", en), ("sample_rate", sr)]) := by
  unfold request_body at hb
  obtain ⟨c2, hc2, hb⟩ := Option.bind_eq_some.mp hb
  obtain ⟨en2, he2, hb⟩ := Option.bind_eq_some.mp hb
  obtain ⟨sr2, hs2, hb⟩ := Option.bind_eq_some.mp hb
  rw [hc] at hc2
  rw [he] at he2
  rw [hs] at hs2
  injection hc2 with hcc
  injection he2 with hee
  injection hs2 with hss
  subst hcc
  subst hee
  subst hss
  have hbody := (Option.some.injEq _ _ ▸ hb)
  subst hbody
  cases duration <;> rfl

/-- Claim C7: the request payload always contains the key `language`, even
when the caller supplied no language (the value is then null); `language`
is never omitted. -/
theorem request_body_language_always_present
    (model_id transcript : String) (voice : List (String × String))
    (output_format : List (String × JValue)) (duration : Option Int)
    (language : Option String) (body : List (String × JValue))
    (hb : request_body model_id transcript voice output_format duration
      language = some body) :
    dictGet body "language" = some (language.elim JValue.null JValue.str) := by
  unfold request_body at hb
  obtain ⟨c, hc, hb⟩ := Option.bind_eq_some.mp hb
  obtain ⟨en, he, hb⟩ := Option.bind_eq_some.mp hb
  obtain ⟨sr, hs, hb⟩ := Option.bind_eq_some.mp hb
  have hbody := (Option.some.injEq _ _ ▸ hb)
  subst hbody
  cases language <;> cases duration <;> rfl

/-! ### Concrete fixtures for the witnesses -/

/-- A concrete client configuration. -/
def cfgW : ClientConfig :=
  ⟨"https://api.cartesia.ai",
   [("X-API-Key", "key"), ("Content-Type", "application/json")], 30⟩

/-- A concrete `output_format` argument carrying an extra `bitrate` key on
top of the three required ones. -/
def ofW : List (String × JValue) :=
  [("container", JValue.str "mp3"), ("encoding", JValue.str "mp3"),
   ("sample_rate", JValue.num 44100), ("bitrate", JValue.num 128)]

/-- A concrete voice selector. -/
def voiceW : List (String × String) := [("mode", "id"), ("id", "voice-1")]

/-- A transport that fails with a connection error on attempts 1 and 2 and
streams three chunks on attempt 3. -/
def tW : Nat → TransportResult := fun n =>
  if n ≤ 2 then .connFail "connection reset"
  else .resp ⟨true, "", [[97, 98], [99, 100], [101, 102]], none⟩

theorem request_body_duration_key_iff_supplied_witness :
    dictGet ((request_body "sonic-english" "Hello world!" voiceW ofW
        (some 0) none).getD []) "duration" = (some (0 : Int)).map JValue.num :=
  request_body_duration_key_iff_supplied "sonic-english" "Hello world!" voiceW
    ofW (some 0) none _ rfl

theorem request_body_output_format_exactly_three_keys_witness :
    dictGet ((request_body "sonic-english" "Hello world!" voiceW ofW
        none none).getD []) "output_format" = some (JValue.obj
      [("container", JValue.str "mp3"), ("encoding", JValue.str "mp3"),
       ("sample_rate", JValue.num 44100)]) :=
  request_body_output_format_exactly_three_keys "sonic-english" "Hello world!"
    voiceW ofW none none _ _ _ _ rfl rfl rfl rfl

theorem request_body_language_always_present_witness :
    dictGet ((request_body "sonic-english" "Hello world!" voiceW ofW
        none none).getD []) "language" =
      some ((none : Option String).elim JValue.null JValue.str) :=
  request_body_language_always_present "sonic-english" "Hello world!" voiceW
    ofW none none _ rfl

/-! ### Claims about the retrying streaming caller -/

/-- Claim C1: if the transport raises a connection-level error on every
attempt, `send` raises after exactly `max_retries` attempts of the whole
operation (connection plus streaming), no more and no fewer, and the
final surfaced error is fatal to the `send` call (`send` returns it as an
error, never an audio value). -/
theorem send_exhausts_exactly_max_retries (cfg : ClientConfig)
    (model_id transcript : String) (output_format : List (String × JValue))
    (voice : List (String × String)) (duration : Option Int)
    (language : Option String) (t : Nat → TransportResult)
    (max_retries : Nat) (bf : ℚ) (msgs : Nat → String)
    (body : List (String × JValue)) (hmr : 1 ≤ max_retries)
    (hb : request_body model_id transcript voice output_format duration
      language = some body)
    (ht : ∀ n, t n = .connFail (msgs n)) :
    (sendTrace cfg model_id transcript output_format voice duration language
        t max_retries bf).attempts = max_retries ∧
    send cfg model_id transcript output_format voice duration language
        t max_retries bf =
      .error (Err.runtimeError (Err.connectionError (msgs max_retries))) := by
  have h := retryGo_allConnFail cfg (jsonDumps (JValue.obj body)) t bf msgs ht
    max_retries 0 hmr
  rw [Nat.zero_add] at h
  have hst := sendTrace_eq_retry cfg model_id transcript output_format voice
    duration language t max_retries bf body hb
  constructor
  · rw [hst, h]
  · unfold send
    rw [hst, h]
    rfl

/-- Claim C2: if the HTTP response has a non-success status, `send` raises
immediately an error carrying the response body text, with zero retry
attempts beyond the first and zero inter-attempt delay; non-2xx responses
never trigger the retry policy. -/
theorem send_http_error_immediate_no_retry (cfg : ClientConfig)
    (model_id transcript : String) (output_format : List (String × JValue))
    (voice : List (String × String)) (duration : Option Int)
    (language : Option String) (t : Nat → TransportResult)
    (max_retries : Nat) (bf : ℚ) (txt : String) (s : List (List Nat))
    (se : Option String) (body : List (String × JValue))
    (hmr : 1 ≤ max_retries)
    (hb : request_body model_id transcript voice output_format duration
      language = some body)
    (ht : t 1 = .resp ⟨false, txt, s, se⟩) :
    (sendTrace cfg model_id transcript output_format voice duration language
        t max_retries bf).attempts = 1 ∧
    (sendTrace cfg model_id transcript output_format voice duration language
        t max_retries bf).delays = [] ∧
    send cfg model_id transcript output_format voice duration language t
        max_retries bf =
      .error (Err.runtimeError (Err.valueError
        ("Failed to generate audio. " ++ txt))) := by
  obtain ⟨r, rfl⟩ : ∃ r, max_retries = r + 1 := ⟨max_retries - 1, by omega⟩
  have hg : (_bytes_generator_wrapper cfg (jsonDumps (JValue.obj body))
      (t (0 + 1))).2.2 =
      some (Err.runtimeError (Err.valueError
        ("Failed to generate audio. " ++ txt))) := by
    rw [show (0 : Nat) + 1 = 1 from rfl, ht, wrapper_badStatus]
  have hstop : ¬(connectionLevel (Err.runtimeError (Err.valueError
      ("Failed to generate audio. " ++ txt))) = true ∧ 0 < r) := by
    simp [connectionLevel]
  have h := retryGo_succ_stop cfg (jsonDumps (JValue.obj body)) t bf 0 r _
    hg hstop
  have hst := sendTrace_eq_retry cfg model_id transcript output_format voice
    duration language t (r + 1) bf body hb
  refine ⟨?_, ?_, ?_⟩
  · rw [hst, h]
  · rw [hst, h]
  · unfold send
    rw [hst, h]
    rfl

/-- Claim C3: for a transport that streams a finite sequence of byte
chunks and closes normally on the first attempt, `send` returns the
mapping `audio ↦ concatenation of all chunks in arrival order`, with no
chunk boundaries preserved. -/
theorem send_returns_concatenated_audio (cfg : ClientConfig)
    (model_id transcript : String) (output_format : List (String × JValue))
    (voice : List (String × String)) (duration : Option Int)
    (language : Option String) (t : Nat → TransportResult)
    (max_retries : Nat) (bf : ℚ) (txt : String) (chunks : List (List Nat))
    (body : List (String × JValue)) (hmr : 1 ≤ max_retries)
    (hb : request_body model_id transcript voice output_format duration
      language = some body)
    (ht : t 1 = .resp ⟨true, txt, chunks, none⟩) :
    send cfg model_id transcript output_format voice duration language t
        max_retries bf = .ok [("audio", chunks.flatten)] := by
  have h := retryGo_leadingFails_thenOk cfg (jsonDumps (JValue.obj body)) t bf
    0 0 max_retries txt chunks hmr (fun i hi => absurd hi (by omega)) ht
  have hst := sendTrace_eq_retry cfg model_id transcript output_format voice
    duration language t max_retries bf body hb
  unfold send
  rw [hst, h]
  rfl

/-- Claim C6: if the first `k < max_retries` attempts fail with a
connection-level error and attempt `k + 1` succeeds, `send` returns the
successful attempt's concatenated bytes and performs exactly `k`
inter-attempt delays, the delay before attempt `n` (n ≥ 2) being
`backoff_factor * 2 ^ (n - 2)` seconds. -/
theorem send_retries_with_exponential_backoff (cfg : ClientConfig)
    (model_id transcript : String) (output_format : List (String × JValue))
    (voice : List (String × String)) (duration : Option Int)
    (language : Option String) (t : Nat → TransportResult)
    (k max_retries : Nat) (bf : ℚ) (txt : String) (chunks : List (List Nat))
    (body : List (String × JValue)) (hk : k + 1 ≤ max_retries)
    (hb : request_body model_id transcript voice output_format duration
      language = some body)
    (hfail : ∀ n, 1 ≤ n → n ≤ k → connFailure (t n) = true)
    (hok : t (k + 1) = .resp ⟨true, txt, chunks, none⟩) :
    send cfg model_id transcript output_format voice duration language t
        max_retries bf = .ok [("audio", chunks.flatten)] ∧
    (sendTrace cfg model_id transcript output_format voice duration language
        t max_retries bf).attempts = k + 1 ∧
    (sendTrace cfg model_id transcript output_format voice duration language
        t max_retries bf).delays =
      (List.range k).map (fun i => bf * 2 ^ i) := by
  have hfail2 : ∀ i, i < k → connFailure (t (0 + 1 + i)) = true := by
    intro i hi
    have h := hfail (i + 1) (by omega) (by omega)
    have heq : (0 : Nat) + 1 + i = i + 1 := by omega
    rwa [heq]
  have hok2 : t (0 + 1 + k) = .resp ⟨true, txt, chunks, none⟩ := by
    have heq : (0 : Nat) + 1 + k = k + 1 := by omega
    rwa [heq]
  have h := retryGo_leadingFails_thenOk cfg (jsonDumps (JValue.obj body)) t bf
    k 0 max_retries txt chunks (by omega) hfail2 hok2
  have hst := sendTrace_eq_retry cfg model_id transcript output_format voice
    duration language t max_retries bf body hb
  refine ⟨?_, ?_, ?_⟩
  · unfold send
    rw [hst, h]
    rfl
  · rw [hst, h]
  · rw [hst, h]
    refine List.map_congr_left ?_
    intro i _
    rw [Nat.zero_add]

/-- Claim C8: every attempt made by `send` issues an HTTP POST to
`{base_url}/tts/bytes` with the construction-time configured headers, the
JSON-encoded request payload as body, and a (connect, read) timeout pair
whose two components both equal the single configured timeout value; the
requests issued are one per attempt. -/
theorem send_posts_fixed_request_every_attempt (cfg : ClientConfig)
    (model_id transcript : String) (output_format : List (String × JValue))
    (voice : List (String × String)) (duration : Option Int)
    (language : Option String) (t : Nat → TransportResult)
    (max_retries : Nat) (bf : ℚ) (body : List (String × JValue))
    (hb : request_body model_id transcript voice output_format duration
      language = some body) :
    (sendTrace cfg model_id transcript output_format voice duration language
        t max_retries bf).requests =
      List.replicate
        (sendTrace cfg model_id transcript output_format voice duration
          language t max_retries bf).attempts
        ⟨"POST", cfg.http_url ++ "/tts/bytes", cfg.headers,
         jsonDumps (JValue.obj body), (cfg.timeout, cfg.timeout)⟩ := by
  have hst := sendTrace_eq_retry cfg model_id transcript output_format voice
    duration language t max_retries bf body hb
  rw [hst]
  exact retryGo_requests_replicate cfg (jsonDumps (JValue.obj body)) t bf
    max_retries 0

/-- Claim C9: `send` has no partial-success outcome: a successful return
is exactly the full concatenated stream of one fully successful attempt
of the transport; it never returns a prefix, and bytes streamed by a
failed attempt never appear in the returned value. -/
theorem send_ok_is_one_full_successful_attempt (cfg : ClientConfig)
    (model_id transcript : String) (output_format : List (String × JValue))
    (voice : List (String × String)) (duration : Option Int)
    (language : Option String) (t : Nat → TransportResult)
    (max_retries : Nat) (bf : ℚ) (body : List (String × JValue))
    (out : List (String × List Nat))
    (hb : request_body model_id transcript voice output_format duration
      language = some body)
    (hsend : send cfg model_id transcript output_format voice duration
      language t max_retries bf = .ok out) :
    ∃ n r, 1 ≤ n ∧ n ≤ max_retries ∧ t n = .resp r ∧ r.ok = true ∧
      r.streamErr = none ∧ out = [("audio", r.stream.flatten)] := by
  have hst := sendTrace_eq_retry cfg model_id transcript output_format voice
    duration language t max_retries bf body hb
  unfold send at hsend
  rw [hst] at hsend
  cases hres : (retryGo cfg (jsonDumps (JValue.obj body)) t bf 0
      max_retries).result with
  | error e =>
    rw [hres] at hsend
    cases hsend
  | ok cs =>
    rw [hres] at hsend
    have hout : out = [("audio", cs.flatten)] := by
      injection hsend with h2
      exact h2.symm
    obtain ⟨j, r, hj, htr, hrok, hrse, hcs⟩ :=
      retryGo_ok_inv cfg (jsonDumps (JValue.obj body)) t bf max_retries 0 cs
        hres
    refine ⟨j + 1, r, by omega, by omega, ?_, hrok, hrse, ?_⟩
    · have heq : (0 : Nat) + 1 + j = j + 1 := by omega
      rwa [heq] at htr
    · rw [hout, hcs]

/-- Claim C10: every exception raised while establishing the connection or
iterating the response stream — connection-level transport errors and the
non-success-status error alike — is caught by `_bytes_generator_wrapper`
and re-raised as a `RuntimeError` whose message embeds the original
exception's text, and any error `send` surfaces is such a `RuntimeError`,
never the original exception type. -/
theorem generation_errors_surface_as_runtime (cfg : ClientConfig)
    (model_id transcript : String) (output_format : List (String × JValue))
    (voice : List (String × String)) (duration : Option Int)
    (language : Option String) (t : Nat → TransportResult)
    (max_retries : Nat) (bf : ℚ) (body : List (String × JValue))
    (hb : request_body model_id transcript voice output_format duration
      language = some body) :
    (∀ tr er,
      (_bytes_generator_wrapper cfg (jsonDumps (JValue.obj body)) tr).2.2 =
        some er →
      ∃ c, (_bytes_generator cfg (jsonDumps (JValue.obj body)) tr).2.2 =
          some c ∧
        er = Err.runtimeError c ∧
        errMessage er = "Error generating audio. " ++ errMessage c) ∧
    (∀ er, (sendTrace cfg model_id transcript output_format voice duration
        language t max_retries bf).result = .error er →
      ∃ c, er = Err.runtimeError c) := by
  constructor
  · intro tr er h
    obtain ⟨c, hc, hce⟩ :=
      wrapper_err_runtime cfg (jsonDumps (JValue.obj body)) tr er h
    refine ⟨c, hc, hce, ?_⟩
    rw [hce]
    rfl
  · intro er h
    rw [sendTrace_eq_retry cfg model_id transcript output_format voice
      duration language t max_retries bf body hb] at h
    exact retryGo_err_runtime cfg (jsonDumps (JValue.obj body)) t bf
      max_retries 0 er h

/-! ### Witnesses for the retry claims -/

theorem send_exhausts_exactly_max_retries_witness :
    (sendTrace cfgW "sonic-english" "Hello world!" ofW voiceW none none
        (fun _ => TransportResult.connFail "connection reset") 3 1).attempts =
      3 ∧
    send cfgW "sonic-english" "Hello world!" ofW voiceW none none
        (fun _ => TransportResult.connFail "connection reset") 3 1 =
      .error (Err.runtimeError (Err.connectionError "connection reset")) :=
  send_exhausts_exactly_max_retries cfgW "sonic-english" "Hello world!" ofW
    voiceW none none (fun _ => TransportResult.connFail "connection reset")
    3 1 (fun _ => "connection reset")
    ((request_body "sonic-english" "Hello world!" voiceW ofW none none).getD [])
    (by omega) rfl (fun n => rfl)

theorem send_http_error_immediate_no_retry_witness :
    (sendTrace cfgW "sonic-english" "Hello world!" ofW voiceW none none
        (fun _ => TransportResult.resp ⟨false, "bad voice", [], none⟩) 3
        1).attempts = 1 ∧
    (sendTrace cfgW "sonic-english" "Hello world!" ofW voiceW none none
        (fun _ => TransportResult.resp ⟨false, "bad voice", [], none⟩) 3
        1).delays = [] ∧
    send cfgW "sonic-english" "Hello world!" ofW voiceW none none
        (fun _ => TransportResult.resp ⟨false, "bad voice", [], none⟩) 3 1 =
      .error (Err.runtimeError (Err.valueError
        ("Failed to generate audio. " ++ "bad voice"))) :=
  send_http_error_immediate_no_retry cfgW "sonic-english" "Hello world!" ofW
    voiceW none none
    (fun _ => TransportResult.resp ⟨false, "bad voice", [], none⟩) 3 1
    "bad voice" [] none
    ((request_body "sonic-english" "Hello world!" voiceW ofW none none).getD [])
    (by omega) rfl rfl

theorem send_returns_concatenated_audio_witness :
    send cfgW "sonic-english" "Hello world!" ofW voiceW none none
        (fun _ => TransportResult.resp
          ⟨true, "", [[97, 98], [99, 100], [101, 102]], none⟩) 3 1 =
      .ok [("audio", [97, 98, 99, 100, 101, 102])] :=
  send_returns_concatenated_audio cfgW "sonic-english" "Hello world!" ofW
    voiceW none none
    (fun _ => TransportResult.resp
      ⟨true, "", [[97, 98], [99, 100], [101, 102]], none⟩) 3 1 ""
    [[97, 98], [99, 100], [101, 102]]
    ((request_body "sonic-english" "Hello world!" voiceW ofW none none).getD [])
    (by omega) rfl rfl

theorem send_retries_with_exponential_backoff_witness :
    send cfgW "sonic-english" "Hello world!" ofW voiceW none none tW 3 1 =
      .ok [("audio", [97, 98, 99, 100, 101, 102])] ∧
    (sendTrace cfgW "sonic-english" "Hello world!" ofW voiceW none none tW 3
        1).attempts = 2 + 1 ∧
    (sendTrace cfgW "sonic-english" "Hello world!" ofW voiceW none none tW 3
        1).delays = (List.range 2).map (fun i => 1 * 2 ^ i) :=
  send_retries_with_exponential_backoff cfgW "sonic-english" "Hello world!"
    ofW voiceW none none tW 2 3 1 "" [[97, 98], [99, 100], [101, 102]]
    ((request_body "sonic-english" "Hello world!" voiceW ofW none none).getD [])
    (by omega) rfl
    (fun n h1 h2 => by
      simp only [tW]
      rw [if_pos h2]
      rfl)
    rfl

theorem send_posts_fixed_request_every_attempt_witness :
    (sendTrace cfgW "sonic-english" "Hello world!" ofW voiceW none none tW 3
        1).requests =
      List.replicate
        (sendTrace cfgW "sonic-english" "Hello world!" ofW voiceW none none
          tW 3 1).attempts
        ⟨"POST", cfgW.http_url ++ "/tts/bytes", cfgW.headers,
         jsonDumps (JValue.obj ((request_body "sonic-english" "Hello world!"
           voiceW ofW none none).getD [])),
         (cfgW.timeout, cfgW.timeout)⟩ :=
  send_posts_fixed_request_every_attempt cfgW "sonic-english" "Hello world!"
    ofW voiceW none none tW 3 1
    ((request_body "sonic-english" "Hello world!" voiceW ofW none none).getD [])
    rfl

theorem send_ok_is_one_full_successful_attempt_witness :
    ∃ n r, 1 ≤ n ∧ n ≤ 3 ∧ tW n = .resp r ∧ r.ok = true ∧
      r.streamErr = none ∧
      [("audio", [97, 98, 99, 100, 101, 102])] =
        [("audio", r.stream.flatten)] :=
  send_ok_is_one_full_successful_attempt cfgW "sonic-english" "Hello world!" ofW voiceW none
    none tW 3 1
    ((request_body "sonic-english" "Hello world!" voiceW ofW none none).getD [])
    [("audio", [97, 98, 99, 100, 101, 102])] rfl rfl

theorem generation_errors_surface_as_runtime_witness :
    (∀ tr er,
      (_bytes_generator_wrapper cfgW (jsonDumps (JValue.obj ((request_body
          "sonic-english" "Hello world!" voiceW ofW none none).getD [])))
          tr).2.2 = some er →
      ∃ c, (_bytes_generator cfgW (jsonDumps (JValue.obj ((request_body
            "sonic-english" "Hello world!" voiceW ofW none none).getD [])))
            tr).2.2 = some c ∧
        er = Err.runtimeError c ∧
        errMessage er = "Error generating audio. " ++ errMessage c) ∧
    (∀ er, (sendTrace cfgW "sonic-english" "Hello world!" ofW voiceW none
        none tW 3 1).result = .error er →
      ∃ c, er = Err.runtimeError c) :=
  generation_errors_surface_as_runtime cfgW "sonic-english" "Hello world!"
    ofW voiceW none none tW 3 1
    ((request_body "sonic-english" "Hello world!" voiceW ofW none none).getD [])
    rfl

end Cartesia
